import Mathlib

/-!
Verification of the google-searcher pipeline (src/main.py).

The program reads a table of social-media post captions, builds a query per
row (`site-fragment + "+" + BMP-filtered caption`), calls a search API with an
exponential-backoff retry loop (`google_search`), accepts the first result
link matching a domain-prefix/path-substring rule, and writes the accepted
URL back into the row's URL column, keeping found / insufficient-text
counters.

We embed the source shallowly: the `SocialNetwork` enum and its accessors,
`filter_bmp_characters`, the query construction and length gate from `main`,
`google_search` as a function of the (abstracted) sequence of HTTP responses,
and the row loop of `main` as a recursion over a list of rows.
-/

namespace GoogleSearcher

/-- Python substring containment `needle in haystack`. -/
def pyIn (needle haystack : String) : Bool :=
  haystack.data.tails.any (fun t => needle.data.isPrefixOf t)

/-- The `SocialNetwork` enum from src/main.py. -/
inductive SocialNetwork
  | FACEBOOK
  | INSTAGRAM
deriving DecidableEq, Repr

/-- Accessor `SocialNetwork.get_domain_url`: first component of the enum value. -/
def SocialNetwork.get_domain_url : SocialNetwork → String
  | .FACEBOOK => "https://www.facebook.com/"
  | .INSTAGRAM => "https://www.instagram.com/"

/-- Accessor `SocialNetwork.get_valid_substrings`: second component of the enum value. -/
def SocialNetwork.get_valid_substrings : SocialNetwork → List String
  | .FACEBOOK => ["posts/", "videos/", "photos/", "groups/"]
  | .INSTAGRAM => ["p/", "tv/", "reel/", "video/", "photo/"]

/-- Accessor `SocialNetwork.get_text_column`: third component of the enum value. -/
def SocialNetwork.get_text_column : SocialNetwork → String
  | .FACEBOOK => "Caption"
  | .INSTAGRAM => "Caption"

/-- Accessor `SocialNetwork.get_url_column`: fourth component of the enum value. -/
def SocialNetwork.get_url_column : SocialNetwork → String
  | .FACEBOOK => "URL"
  | .INSTAGRAM => "URL"

/-- Accessor `SocialNetwork.get_site_query`: fifth component of the enum value. -/
def SocialNetwork.get_site_query : SocialNetwork → String
  | .FACEBOOK => "site: facebook.com"
  | .INSTAGRAM => "site: instagram.com"

/-- Constant `MIN_TEXT_LENGTH = 200` from src/main.py. -/
def MIN_TEXT_LENGTH : Nat := 200

/-- Function `filter_bmp_characters`: the regex substitution removes
every character whose code point is above U+FFFF and keeps the rest. -/
def filter_bmp_characters (text : String) : String :=
  ⟨text.data.filter (fun c => c.toNat ≤ 0xFFFF)⟩

/-- The query built in `main`:
`f"{social_network.get_site_query()}+{filter_bmp_characters(text)}"`. -/
def build_query (sn : SocialNetwork) (text : String) : String :=
  sn.get_site_query ++ "+" ++ filter_bmp_characters text

/-- The acceptance test applied to a candidate link inside `google_search`:
`social_network.get_domain_url() in link and any(substring in link for
substring in social_network.get_valid_substrings())`. -/
def link_accepted (sn : SocialNetwork) (link : String) : Bool :=
  pyIn sn.get_domain_url link && sn.get_valid_substrings.any (fun s => pyIn s link)

/-- Model of one search-result item: its optional `link` field
(`none` = the JSON object has no `"link"` key, so `item['link']` raises). -/
abbrev SearchItem : Type := Option String

/-- Model of the body of one HTTP response, as consumed by
`response.json()` followed by `.get('items', [])`. -/
inductive ResponseBody
  | invalid
  | obj (items : List SearchItem)

/-- Model of what one call to `requests.get` produces: the connection itself
may fail, or an HTTP response with a status code and a body arrives. -/
inductive HttpAttempt
  | connectionError
  | response (status : Nat) (body : ResponseBody)

/-- The Python exceptions that can escape `google_search` in the model:
only `requests.exceptions.HTTPError` is caught by the source. -/
inductive PyExn
  | connectionError
  | jsonDecodeError
  | keyError
deriving DecidableEq, Repr

/-- Result of `google_search`: either a normal return value (a URL string,
possibly empty) or an uncaught exception propagating to the caller. -/
inductive SearchResult
  | ok (url : String)
  | raised (e : PyExn)
deriving DecidableEq, Repr

/-- Observable trace of one `google_search` call: its result, the sequence of
`time.sleep` waits (in seconds), and the number of HTTP requests issued. -/
structure SearchRun where
  result : SearchResult
  waits : List Nat
  requests : Nat
deriving DecidableEq, Repr

/-- The inner result scan of `google_search`:
`for item in itens: link = item['link']; if <accepted>: return link` and
`return ""` after the loop.  A missing `link` key raises `KeyError`. -/
def first_accepted_link (sn : SocialNetwork) : List SearchItem → SearchResult
  | [] => .ok ""
  | none :: _ => .raised .keyError
  | some link :: rest =>
    if link_accepted sn link then .ok link else first_accepted_link sn rest

/-- Predicate for `response.raise_for_status()`: it raises `HTTPError` exactly for
status codes 400–599. -/
def is_http_error (status : Nat) : Bool :=
  400 ≤ status && status < 600

/-- The retry loop of `google_search` (`for attempt in range(retries)`),
as a recursion on the remaining number of attempts.  `env i` is what the
`i`-th `requests.get` call produces.  On 429 the code sleeps `2 ** attempt`
seconds and retries; on any other HTTP error it returns `""`; on a successful
response it parses the body and scans the items; only `HTTPError` is caught,
so a connection failure or a JSON decode failure propagates. -/
def google_search_from (sn : SocialNetwork) (env : Nat → HttpAttempt) :
    Nat → Nat → SearchRun
  | _, 0 => ⟨.ok "", [], 0⟩
  | attempt, fuel + 1 =>
    match env attempt with
    | .connectionError => ⟨.raised .connectionError, [], 1⟩
    | .response status body =>
      if is_http_error status then
        if status = 429 then
          let rest := google_search_from sn env (attempt + 1) fuel
          ⟨rest.result, 2 ^ attempt :: rest.waits, rest.requests + 1⟩
        else
          ⟨.ok "", [], 1⟩
      else
        match body with
        | .invalid => ⟨.raised .jsonDecodeError, [], 1⟩
        | .obj items => ⟨first_accepted_link sn items, [], 1⟩

/-- Function `google_search(query, social_network, max_results, retries)` over an
abstracted network environment `env`.  The query and result cap are sent with
the request but do not influence the client-side control flow. -/
def google_search (query : String) (sn : SocialNetwork)
    (max_results retries : Nat) (env : Nat → HttpAttempt) : SearchRun :=
  google_search_from sn env 0 retries

/-- One row of the input table: the caption read through the profile's text
column, the value of the profile's URL column, and the values of all other
columns (never touched by the loop). -/
structure Row where
  caption : String
  url : String
  other : List String
deriving DecidableEq, Repr

/-- Line 153 of src/main.py: `data_posts[social_network.get_url_column()] = ''`
sets the URL column of every row to the empty string before the loop runs. -/
def set_url_column (rows : List Row) : List Row :=
  rows.map (fun r => { r with url := "" })

/-- Outcome of one iteration of the row loop: skipped for insufficient text,
found (URL written), or searched without success. -/
inductive RowOutcome
  | skipped
  | found (url : String)
  | notFound
deriving DecidableEq, Repr

/-- Decision test for the skipped outcome. -/
def RowOutcome.isSkipped : RowOutcome → Bool
  | .skipped => true
  | _ => false

/-- Decision test for the found outcome. -/
def RowOutcome.isFound : RowOutcome → Bool
  | .found _ => true
  | _ => false

/-- Decision test for the not-found outcome. -/
def RowOutcome.isNotFound : RowOutcome → Bool
  | .notFound => true
  | _ => false

/-- One iteration of the loop body of `main` (lines 159-174): build the
query, skip the row when its length is below `MIN_TEXT_LENGTH`, otherwise
issue the search (abstracted as a deterministic client `search`) and classify
the row by whether the returned URL is non-empty. -/
def process_row (sn : SocialNetwork) (search : String → String)
    (text : String) : RowOutcome :=
  let query := build_query sn text
  if query.length < MIN_TEXT_LENGTH then .skipped
  else
    let url := search query
    if url = "" then .notFound else .found url

/-- Effect of one row's outcome on the row: only the found branch executes
`data_posts.at[index, url_column] = url`; the other branches leave the row
unchanged. -/
def apply_outcome (r : Row) : RowOutcome → Row
  | .found u => { r with url := u }
  | _ => r

/-- Number of writes the loop body performs into one row's URL field:
exactly one in the found branch, zero otherwise. -/
def row_write_count (sn : SocialNetwork) (search : String → String)
    (text : String) : Nat :=
  match process_row sn search text with
  | .found _ => 1
  | _ => 0

/-- State produced by the row loop: the (mutated) rows and the two counters
`search_success` and `insuficient_text` (spelling as in the source). -/
structure RunState where
  rows : List Row
  search_success : Nat
  insuficient_text : Nat
deriving DecidableEq, Repr

/-- The row loop of `main` (lines 159-174) over a list of rows, accumulating
the two counters and applying at most one URL write per row. -/
def process_rows (sn : SocialNetwork) (search : String → String) :
    List Row → RunState
  | [] => ⟨[], 0, 0⟩
  | r :: rest =>
    let o := process_row sn search r.caption
    let s := process_rows sn search rest
    match o with
    | .skipped => ⟨r :: s.rows, s.search_success, s.insuficient_text + 1⟩
    | .found u => ⟨{ r with url := u } :: s.rows, s.search_success + 1, s.insuficient_text⟩
    | .notFound => ⟨r :: s.rows, s.search_success, s.insuficient_text⟩

/-- The row-processing part of `main` (lines 152-178): clear the URL column,
then run the loop. -/
def run_main (sn : SocialNetwork) (search : String → String)
    (rows : List Row) : RunState :=
  process_rows sn search (set_url_column rows)

/-- The not-found count printed at line 178:
`len(data_posts) - search_success - insuficient_text`. -/
def not_found_count (st : RunState) : Nat :=
  st.rows.length - st.search_success - st.insuficient_text

/-- Count of rows of the input whose loop outcome satisfies `p`. -/
def outcome_count (sn : SocialNetwork) (search : String → String)
    (rows : List Row) (p : RowOutcome → Bool) : Nat :=
  (rows.map (fun r => process_row sn search r.caption)).countP p

/-- Projection of a row onto the fields the loop never writes. -/
def row_frame (r : Row) : String × List String :=
  (r.caption, r.other)

/-! ### Helper lemmas about the row loop -/

theorem process_rows_spec (sn : SocialNetwork) (search : String → String)
    (l : List Row) :
    (process_rows sn search l).rows
        = l.map (fun r => apply_outcome r (process_row sn search r.caption))
    ∧ (process_rows sn search l).search_success
        = (l.map (fun r => process_row sn search r.caption)).countP RowOutcome.isFound
    ∧ (process_rows sn search l).insuficient_text
        = (l.map (fun r => process_row sn search r.caption)).countP RowOutcome.isSkipped := by
  induction l with
  | nil => simp [process_rows]
  | cons r rest ih =>
    obtain ⟨h1, h2, h3⟩ := ih
    cases ho : process_row sn search r.caption <;>
      simp [process_rows, ho, h1, h2, h3, apply_outcome,
        RowOutcome.isFound, RowOutcome.isSkipped, List.countP_cons]

theorem outcomes_partition (l : List RowOutcome) :
    l.countP RowOutcome.isFound + l.countP RowOutcome.isSkipped
      + l.countP RowOutcome.isNotFound = l.length := by
  induction l with
  | nil => simp
  | cons o rest ih =>
    cases o <;>
      simp [List.countP_cons, RowOutcome.isFound, RowOutcome.isSkipped,
        RowOutcome.isNotFound] <;> omega

theorem apply_outcome_frame (r : Row) (o : RowOutcome) :
    row_frame (apply_outcome r o) = row_frame r := by
  cases o <;> rfl

theorem set_url_column_frame (l : List Row) :
    (set_url_column l).map row_frame = l.map row_frame := by
  simp [set_url_column, List.map_map]
  exact fun a _ => rfl

theorem process_rows_frame (sn : SocialNetwork) (search : String → String)
    (l : List Row) :
    (process_rows sn search l).rows.map row_frame = l.map row_frame := by
  rw [(process_rows_spec sn search l).1, List.map_map]
  exact List.map_congr_left fun r _ => apply_outcome_frame r _

theorem set_url_column_eq_of_frame (l l' : List Row)
    (h : l.map row_frame = l'.map row_frame) :
    set_url_column l = set_url_column l' := by
  have : ∀ m : List Row,
      set_url_column m = (m.map row_frame).map (fun p => ⟨p.1, "", p.2⟩) := by
    intro m
    simp [set_url_column, List.map_map]
    exact fun a _ => ⟨rfl, rfl⟩
  rw [this l, this l', h]

theorem outcomes_set_url_column (sn : SocialNetwork) (search : String → String)
    (rows : List Row) :
    (set_url_column rows).map (fun r => process_row sn search r.caption)
      = rows.map (fun r => process_row sn search r.caption) := by
  simp [set_url_column, List.map_map]

/-! ### C1: the three outcome counts reconcile with the row total -/

/-- C1: over any run of the row loop, `search_success + insuficient_text`
plus the derived not-found count (`total - found - skipped`, line 178) equals
the number of input rows, and the derived not-found count agrees with the
number of rows whose outcome is the not-found outcome, so every row ends in
exactly one of the three outcomes. -/
theorem counts_reconcile (sn : SocialNetwork) (search : String → String)
    (rows : List Row) :
    (run_main sn search rows).search_success
        + (run_main sn search rows).insuficient_text
        + not_found_count (run_main sn search rows) = rows.length
    ∧ not_found_count (run_main sn search rows)
        = outcome_count sn search rows RowOutcome.isNotFound := by
  obtain ⟨h1, h2, h3⟩ := process_rows_spec sn search (set_url_column rows)
  have hlen : (run_main sn search rows).rows.length = rows.length := by
    rw [run_main, h1]
    simp [set_url_column]
  have hout := outcomes_set_url_column sn search rows
  have hpart := outcomes_partition
    ((set_url_column rows).map (fun r => process_row sn search r.caption))
  rw [hout] at h2 h3 hpart
  have hlen2 : (rows.map (fun r => process_row sn search r.caption)).length
      = rows.length := by simp
  rw [hlen2] at hpart
  unfold not_found_count outcome_count
  rw [hlen]
  unfold run_main
  rw [h2, h3]
  omega

/-! ### C5: the 200-character length gate on the built query -/

/-- C5: a row is skipped (counted as insufficient text) exactly when the
prefixed, BMP-filtered query is shorter than `MIN_TEXT_LENGTH = 200`
characters; at length 199 it is skipped, and at length ≥ 200 the search is
issued and the row is classified by the returned URL. -/
theorem query_length_gate (sn : SocialNetwork) (search : String → String)
    (text : String) :
    (process_row sn search text = RowOutcome.skipped
        ↔ (build_query sn text).length < MIN_TEXT_LENGTH)
    ∧ ((build_query sn text).length = 199 →
        process_row sn search text = RowOutcome.skipped)
    ∧ (MIN_TEXT_LENGTH ≤ (build_query sn text).length →
        process_row sn search text
          = if search (build_query sn text) = "" then RowOutcome.notFound
            else RowOutcome.found (search (build_query sn text))) := by
  refine ⟨?_, ?_, ?_⟩
  · unfold process_row
    by_cases h : (build_query sn text).length < MIN_TEXT_LENGTH
    · simp [h]
    · simp only [h, if_false]
      constructor
      · intro hc
        by_cases hu : search (build_query sn text) = "" <;>
          simp [hu] at hc
      · exact fun hc => hc.elim
  · intro h
    unfold process_row
    simp [h, MIN_TEXT_LENGTH]
  · intro h
    unfold process_row
    simp [Nat.not_lt.mpr h]

/-- Witness for C5 at the boundary: with the Facebook profile and a stub
client, a caption of 180 `a`s builds a query of length exactly 199 and is
skipped, while 181 `a`s build a query of length exactly 200 and the search is
issued (here returning no URL, so the row is not-found, not skipped). -/
theorem query_length_gate_witness :
    process_row SocialNetwork.FACEBOOK (fun _ => "")
        ⟨List.replicate 180 'a'⟩ = RowOutcome.skipped
    ∧ process_row SocialNetwork.FACEBOOK (fun _ => "")
        ⟨List.replicate 181 'a'⟩ = RowOutcome.notFound := by
  constructor
  · exact (query_length_gate SocialNetwork.FACEBOOK (fun _ => "")
      ⟨List.replicate 180 'a'⟩).2.1 rfl
  · have h := (query_length_gate SocialNetwork.FACEBOOK (fun _ => "")
      ⟨List.replicate 181 'a'⟩).2.2 (by rw [show (build_query SocialNetwork.FACEBOOK ⟨List.replicate 181 'a'⟩).length = 200 from rfl]; decide)
    rw [h]
    rfl

/-! ### C7: re-running the loop over the augmented table is idempotent -/

/-- C7: with a deterministic stub search client, running the row-processing
part of `main` a second time over the rows produced by the first run yields
exactly the first run's state (same rows, same counters). -/
theorem rerun_idempotent (sn : SocialNetwork) (search : String → String)
    (rows : List Row) :
    run_main sn search (run_main sn search rows).rows
      = run_main sn search rows := by
  unfold run_main
  have hframe : (process_rows sn search (set_url_column rows)).rows.map row_frame
      = rows.map row_frame := by
    rw [process_rows_frame, set_url_column_frame]
  rw [set_url_column_eq_of_frame _ rows hframe]

/-! ### C8: frame property of the row loop -/

/-- C8: the row loop preserves the number and order of the rows, never
modifies any field other than the profile's URL column (captions and all
other columns are unchanged, row by row), and performs at most one URL write
per row over the whole run. -/
theorem loop_frame (sn : SocialNetwork) (search : String → String)
    (rows : List Row) :
    (run_main sn search rows).rows.map row_frame = rows.map row_frame
    ∧ (run_main sn search rows).rows.length = rows.length
    ∧ ∀ r ∈ rows, row_write_count sn search r.caption ≤ 1 := by
  refine ⟨?_, ?_, ?_⟩
  · rw [run_main, process_rows_frame, set_url_column_frame]
  · have h := congrArg List.length
      (by rw [run_main, process_rows_frame, set_url_column_frame] :
        (run_main sn search rows).rows.map row_frame = rows.map row_frame)
    simpa using h
  · intro r _
    unfold row_write_count
    cases process_row sn search r.caption <;> simp

/-- Witness for C8 on a concrete two-row table: the loop keeps both rows in
order with caption and extra columns intact, and each row is written at most
once. -/
theorem loop_frame_witness :
    (run_main SocialNetwork.FACEBOOK (fun _ => "")
        [⟨"a", "old", ["x"]⟩, ⟨"b", "old", ["y"]⟩]).rows.map row_frame
      = [("a", ["x"]), ("b", ["y"])]
    ∧ row_write_count SocialNetwork.FACEBOOK (fun _ => "") "a" ≤ 1 := by
  constructor
  · rw [(loop_frame SocialNetwork.FACEBOOK (fun _ => "")
      [⟨"a", "old", ["x"]⟩, ⟨"b", "old", ["y"]⟩]).1]
    rfl
  · exact (loop_frame SocialNetwork.FACEBOOK (fun _ => "")
      [⟨"a", "old", ["x"]⟩, ⟨"b", "old", ["y"]⟩]).2.2 ⟨"a", "old", ["x"]⟩
      (List.mem_cons_self _ _)

/-! ### C9: the URL column is cleared before the loop -/

/-- C9: line 153 sets the URL column of every row to the empty string,
overwriting whatever the input held there; consequently any row whose
outcome is not the found outcome ends the run with an empty URL field. -/
theorem url_column_reset (sn : SocialNetwork) (search : String → String)
    (rows : List Row) :
    (set_url_column rows).map Row.url = List.replicate rows.length ""
    ∧ ∀ i (h1 : i < rows.length)
        (h2 : i < (run_main sn search rows).rows.length),
        (∀ u, process_row sn search (rows.get ⟨i, h1⟩).caption
            ≠ RowOutcome.found u) →
        ((run_main sn search rows).rows.get ⟨i, h2⟩).url = "" := by
  constructor
  · simp [set_url_column, List.map_map]
    exact List.map_const rows ""
  · intro i h1 h2 hnf
    have hrows : (run_main sn search rows).rows
        = rows.map (fun r =>
            apply_outcome { r with url := "" }
              (process_row sn search r.caption)) := by
      rw [run_main, (process_rows_spec sn search (set_url_column rows)).1,
        set_url_column, List.map_map]
      rfl
    have hget : (run_main sn search rows).rows.get ⟨i, h2⟩
        = apply_outcome { rows.get ⟨i, h1⟩ with url := "" }
            (process_row sn search (rows.get ⟨i, h1⟩).caption) := by
      have := List.get_of_eq hrows ⟨i, h2⟩
      rw [this]
      rw [List.get_map]
    rw [hget]
    cases ho : process_row sn search (rows.get ⟨i, h1⟩).caption with
    | skipped => rfl
    | notFound => rfl
    | found u => exact absurd ho (hnf u)

/-- Witness for C9: a one-row table whose input URL cell is non-empty and
whose caption is too short to search ends the run with an empty URL cell. -/
theorem url_column_reset_witness :
    ((set_url_column [⟨"short", "stale", []⟩]).map Row.url
      = List.replicate 1 "")
    ∧ ((run_main SocialNetwork.FACEBOOK (fun _ => "")
        [⟨"short", "stale", []⟩]).rows.get
          ⟨0, by rw [show (run_main SocialNetwork.FACEBOOK (fun _ => "") [⟨"short", "stale", []⟩]).rows.length = 1 from rfl]; exact Nat.zero_lt_one⟩).url = "" := by
  refine ⟨(url_column_reset SocialNetwork.FACEBOOK (fun _ => "")
    [⟨"short", "stale", []⟩]).1, ?_⟩
  refine (url_column_reset SocialNetwork.FACEBOOK (fun _ => "")
    [⟨"short", "stale", []⟩]).2 0 Nat.zero_lt_one _ ?_
  intro u h
  rw [show process_row SocialNetwork.FACEBOOK (fun _ => "")
    (([⟨"short", "stale", []⟩] : List Row).get ⟨0, Nat.zero_lt_one⟩).caption
      = RowOutcome.skipped from rfl] at h
  exact RowOutcome.noConfusion h

/-! ### C6: the BMP filter removes exactly the characters above U+FFFF -/

/-- C6: `filter_bmp_characters` returns a sublist of the input (so the kept
characters stay in their original relative order and nothing is inserted),
every kept character has code point at most U+FFFF, and every character with
code point at most U+FFFF is kept with its exact multiplicity — so exactly
the characters above U+FFFF are removed. -/
theorem filter_bmp_exact (text : String) :
    (filter_bmp_characters text).data.Sublist text.data
    ∧ (∀ c ∈ (filter_bmp_characters text).data, c.toNat ≤ 0xFFFF)
    ∧ (∀ c : Char, c.toNat ≤ 0xFFFF →
        (filter_bmp_characters text).data.count c = text.data.count c) := by
  refine ⟨List.filter_sublist _, ?_, ?_⟩
  · intro c hc
    have := List.of_mem_filter hc
    simpa using this
  · intro c hc
    unfold filter_bmp_characters
    rw [List.count_filter]
    simp [hc]

/-- Witness for C6 on a concrete string containing a 4-byte emoji: the emoji
is removed, the BMP characters survive in order and with multiplicity. -/
theorem filter_bmp_exact_witness :
    (filter_bmp_characters "ab🎉c").data.Sublist ("ab🎉c").data
    ∧ ('a' ∈ (filter_bmp_characters "ab🎉c").data → 'a'.toNat ≤ 0xFFFF)
    ∧ (filter_bmp_characters "ab🎉c").data.count 'c' = ("ab🎉c").data.count 'c'
    ∧ filter_bmp_characters "ab🎉c" = "abc" := by
  refine ⟨(filter_bmp_exact "ab🎉c").1,
    fun hm => (filter_bmp_exact "ab🎉c").2.1 'a' hm,
    (filter_bmp_exact "ab🎉c").2.2 'c' (by decide), rfl⟩

/-! ### C10: zero retries means no request at all -/

/-- C10: with `retries = 0` the loop body never runs: `google_search` returns
the empty string, performs no wait, and issues no HTTP request, for every
query, profile, result cap and network behaviour. -/
theorem zero_retries_no_request (query : String) (sn : SocialNetwork)
    (max_results : Nat) (env : Nat → HttpAttempt) :
    google_search query sn max_results 0 env
      = ⟨SearchResult.ok "", [], 0⟩ := rfl

/-! ### C3: exponential backoff on 429, immediate stop on other errors -/

theorem google_search_from_all_429 (sn : SocialNetwork)
    (env : Nat → HttpAttempt) (h : ∀ i, ∃ b, env i = HttpAttempt.response 429 b)
    (r a : Nat) :
    google_search_from sn env a r
      = ⟨SearchResult.ok "", (List.range r).map (fun i => 2 ^ (a + i)), r⟩ := by
  induction r generalizing a with
  | zero => rfl
  | succ n ih =>
    obtain ⟨b, hb⟩ := h a
    rw [google_search_from, hb]
    have h429 : is_http_error 429 = true := by decide
    simp only [h429, if_true, if_pos rfl, ih (a + 1)]
    have hw : (2 ^ a :: List.map (fun i => 2 ^ (a + 1 + i)) (List.range n))
        = List.map (fun i => 2 ^ (a + i)) (List.range (n + 1)) := by
      rw [List.range_succ_eq_map, List.map_cons, List.map_map]
      refine congrArg₂ List.cons (by rw [Nat.add_zero]) ?_
      exact List.map_congr_left fun i _ => by
        simp [Function.comp, Nat.add_assoc, Nat.add_comm 1 i]
    rw [hw]

/-- C3: if every attempt is answered with HTTP 429, the client makes exactly
`r` requests, sleeping `2^0, 2^1, ..., 2^(r-1)` seconds after the failed
attempts, and finally returns the empty string; and if the first attempt is
answered with any HTTP error status other than 429, it returns the empty
string after that single request, with no retry and no wait. -/
theorem backoff_and_fail_fast (query : String) (sn : SocialNetwork)
    (env : Nat → HttpAttempt) (r : Nat) :
    ((∀ i, ∃ b, env i = HttpAttempt.response 429 b) →
      google_search query sn 5 r env
        = ⟨SearchResult.ok "", (List.range r).map (fun i => 2 ^ i), r⟩)
    ∧ (∀ s b, is_http_error s = true → s ≠ 429 →
        env 0 = HttpAttempt.response s b → 1 ≤ r →
        google_search query sn 5 r env = ⟨SearchResult.ok "", [], 1⟩) := by
  constructor
  · intro h
    rw [google_search, google_search_from_all_429 sn env h r 0]
    have hw : (List.range r).map (fun i => 2 ^ (0 + i))
        = (List.range r).map (fun i => 2 ^ i) :=
      List.map_congr_left fun i _ => by rw [Nat.zero_add]
    rw [hw]
  · intro s b hs hs429 henv hr
    cases r with
    | zero => exact absurd hr (by decide)
    | succ n =>
      rw [google_search, google_search_from, henv]
      simp [hs, hs429]

/-- Witness for C3: three straight 429 responses produce exactly the waits
`[1, 2, 4]`, three requests and an empty result; a first response with
status 500 produces one request, no wait and an empty result. -/
theorem backoff_and_fail_fast_witness :
    google_search "q" SocialNetwork.FACEBOOK 5 3
        (fun _ => HttpAttempt.response 429 ResponseBody.invalid)
      = ⟨SearchResult.ok "", [1, 2, 4], 3⟩
    ∧ google_search "q" SocialNetwork.FACEBOOK 5 5
        (fun _ => HttpAttempt.response 500 ResponseBody.invalid)
      = ⟨SearchResult.ok "", [], 1⟩ := by
  constructor
  · rw [(backoff_and_fail_fast "q" SocialNetwork.FACEBOOK
      (fun _ => HttpAttempt.response 429 ResponseBody.invalid) 3).1
      (fun i => ⟨ResponseBody.invalid, rfl⟩)]
    rfl
  · exact (backoff_and_fail_fast "q" SocialNetwork.FACEBOOK
      (fun _ => HttpAttempt.response 500 ResponseBody.invalid) 5).2
      500 ResponseBody.invalid (by decide) (by decide) rfl (by decide)

/-! ### C2: which failures stay inside `google_search`

The source's `try` block catches only `requests.exceptions.HTTPError`.
A connection-level failure of `requests.get`, a body that `response.json()`
cannot decode, and a result item without a `'link'` key are all raised by
statements inside the `try` block but are not `HTTPError`, so they
propagate to the caller. -/

/-- Predicate stating that one attempt's answer exercises only the handled
paths: the connection succeeds, the body is decodable JSON, and every result
item carries a `link` field. -/
def attempt_benign : HttpAttempt → Prop
  | .connectionError => False
  | .response _ .invalid => False
  | .response _ (.obj items) => ∀ it ∈ items, it ≠ none

theorem first_accepted_link_total (sn : SocialNetwork)
    (items : List SearchItem) (h : ∀ it ∈ items, it ≠ none) :
    ∃ s, first_accepted_link sn items = SearchResult.ok s
      ∧ (s = "" ∨ link_accepted sn s = true) := by
  induction items with
  | nil => exact ⟨"", rfl, Or.inl rfl⟩
  | cons it rest ih =>
    cases it with
    | none => exact absurd rfl (h none (List.mem_cons_self _ _))
    | some link =>
      by_cases hl : link_accepted sn link
      · exact ⟨link, by simp [first_accepted_link, hl], Or.inr hl⟩
      · obtain ⟨s, hs, hacc⟩ := ih (fun x hx => h x (List.mem_cons_of_mem _ hx))
        exact ⟨s, by simp [first_accepted_link, hl, hs], hacc⟩

theorem google_search_from_total (sn : SocialNetwork)
    (env : Nat → HttpAttempt) (h : ∀ i, attempt_benign (env i)) (r a : Nat) :
    ∃ s, (google_search_from sn env a r).result = SearchResult.ok s
      ∧ (s = "" ∨ link_accepted sn s = true) := by
  induction r generalizing a with
  | zero => exact ⟨"", rfl, Or.inl rfl⟩
  | succ n ih =>
    have hb := h a
    cases henv : env a with
    | connectionError => rw [henv] at hb; exact hb.elim
    | response status body =>
      cases body with
      | invalid => rw [henv] at hb; exact hb.elim
      | obj items =>
        rw [henv] at hb
        rw [google_search_from, henv]
        by_cases he : is_http_error status
        · by_cases h429 : status = 429
          · simpa [he, h429] using ih (a + 1)
          · exact ⟨"", by simp [he, h429], Or.inl rfl⟩
        · exact (by simpa [he] using
            first_accepted_link_total sn items hb)

/-- C2 (amended): provided no attempt fails at the connection level, every
response body is decodable, and every result item has a `link` field,
`google_search` always returns normally, with either the empty string or a
link accepted by the domain/path rule, for any query, profile and retry
budget. -/
theorem google_search_no_leak (query : String) (sn : SocialNetwork)
    (retries : Nat) (env : Nat → HttpAttempt)
    (h : ∀ i, attempt_benign (env i)) :
    ∃ s, (google_search query sn 5 retries env).result = SearchResult.ok s
      ∧ (s = "" ∨ link_accepted sn s = true) :=
  google_search_from_total sn env h retries 0

/-- Witness for C2 (amended): a single well-formed success response with one
accepted Facebook link makes `google_search` return normally. -/
theorem google_search_no_leak_witness :
    ∃ s, (google_search "q" SocialNetwork.FACEBOOK 5 5
        (fun _ => HttpAttempt.response 200 (ResponseBody.obj
          [some "https://www.facebook.com/posts/123"]))).result
        = SearchResult.ok s
      ∧ (s = "" ∨ link_accepted SocialNetwork.FACEBOOK s = true) :=
  google_search_no_leak "q" SocialNetwork.FACEBOOK 5
    (fun _ => HttpAttempt.response 200 (ResponseBody.obj
      [some "https://www.facebook.com/posts/123"]))
    (fun _ => by
      intro it hit
      simp only [List.mem_singleton] at hit
      rw [hit]
      exact fun hc => Option.noConfusion hc)

/-- Counterexample to C2 as stated: when the first HTTP attempt is a
connection failure, `google_search` does not resolve it to a URL or an empty
string — the exception escapes to the caller, because the `except` clause
catches only `requests.exceptions.HTTPError`. -/
theorem google_search_leaks_connection_error :
    (google_search "q" SocialNetwork.FACEBOOK 5 5
        (fun _ => HttpAttempt.connectionError)).result
      = SearchResult.raised PyExn.connectionError := rfl

/-! ### C4: the first matching link of a successful response is returned -/

theorem first_accepted_link_find (sn : SocialNetwork) (L : List String) :
    first_accepted_link sn (L.map some)
      = SearchResult.ok ((L.find? (link_accepted sn)).getD "") := by
  induction L with
  | nil => rfl
  | cons l rest ih =>
    by_cases hl : link_accepted sn l
    · simp [first_accepted_link, List.find?_cons, hl]
    · simp [first_accepted_link, List.find?_cons, hl, ih]

/-- C4: when an attempt gets an HTTP-success response whose result list is
the links `L` (each item carrying its link), `google_search` returns the
first link of `L` that passes the domain-prefix/path-substring acceptance
rule, or the empty string when no link passes (in particular when `L` is
empty), after that single request, with no retry and no wait. -/
theorem success_returns_first_match (query : String) (sn : SocialNetwork)
    (r : Nat) (env : Nat → HttpAttempt) (status : Nat) (L : List String)
    (henv : env 0 = HttpAttempt.response status (ResponseBody.obj (L.map some)))
    (hs : is_http_error status = false) (hr : 1 ≤ r) :
    google_search query sn 5 r env
      = ⟨SearchResult.ok ((L.find? (link_accepted sn)).getD ""), [], 1⟩ := by
  cases r with
  | zero => exact absurd hr (by decide)
  | succ n =>
    rw [google_search, google_search_from, henv]
    simp [hs, first_accepted_link_find]

/-- Witness for C4, using the spec's own examples: the profile-less link and
the `m.facebook.com` link are rejected, the third link is accepted, and the
accepted one is returned after a single request. -/
theorem success_returns_first_match_witness :
    google_search "q" SocialNetwork.FACEBOOK 5 5
        (fun _ => HttpAttempt.response 200 (ResponseBody.obj
          [some "https://www.facebook.com/johndoe",
           some "https://m.facebook.com/posts/123",
           some "https://www.facebook.com/posts/123"]))
      = ⟨SearchResult.ok "https://www.facebook.com/posts/123", [], 1⟩ := by
  have h := success_returns_first_match "q" SocialNetwork.FACEBOOK 5
    (fun _ => HttpAttempt.response 200 (ResponseBody.obj
      [some "https://www.facebook.com/johndoe",
       some "https://m.facebook.com/posts/123",
       some "https://www.facebook.com/posts/123"]))
    200
    ["https://www.facebook.com/johndoe",
     "https://m.facebook.com/posts/123",
     "https://www.facebook.com/posts/123"]
    rfl (by decide) (by decide)
  rw [h]
  rfl

end GoogleSearcher
